import Mathlib

/-!
Shallow embedding of the LS-8 emulator in `src/ls8/cpu.py`.

Python integers are unbounded and the emulator performs no 8-bit masking, so
register and memory cells are modelled as rationals (`ℚ`): ordinary execution
keeps them at integer values, but the `DIV` handler uses Python's true
division `/`, which produces non-integer values, and those must be
representable.  (Python stores them as IEEE floats; at the small dyadic
values exercised here the float is exactly the rational quotient.)

Python's list indexing is defined only at the integer indices actually used;
the model makes `ram` and `reg` total maps `ℚ → ℚ`, which agrees with the
source at every index any claim exercises.  Bitwise operators (`&`, `|`,
`^`, `~`, `%`) act on Python ints; they are modelled through the numerator
(exact at the nonnegative integer values the claims use) and extended
totally elsewhere.
-/

namespace LS8

/-! Opcode constants, from `cpu.py` lines 8-41. -/

def HLT : ℕ := 0b00000001
def LDI : ℕ := 0b10000010
def PRN : ℕ := 0b01000111
def LD : ℕ := 0b10000011
def ST : ℕ := 0b10000100
def PUSH : ℕ := 0b01000101
def POP : ℕ := 0b01000110
def PRA : ℕ := 0b01001000

def ADD : ℕ := 0b10100000
def SUB : ℕ := 0b10100001
def MUL : ℕ := 0b10100010
def DIV : ℕ := 0b10100011
def MOD : ℕ := 0b10100100
def INC : ℕ := 0b01100101
def DEC : ℕ := 0b01100110
def CMP : ℕ := 0b10100111
def AND : ℕ := 0b10101000
def NOT : ℕ := 0b01101001
def OR : ℕ := 0b10101010
def XOR : ℕ := 0b10101011
def SHL : ℕ := 0b10101100
def SHR : ℕ := 0b10101101

def CALL : ℕ := 0b01010000
def RET : ℕ := 0b00010001
def INT : ℕ := 0b01010010
def IRET : ℕ := 0b00010011
def JMP : ℕ := 0b01010100
def JEQ : ℕ := 0b01010101
def JNE : ℕ := 0b01010110

/-- Register index of the stack pointer (`SP = 7`, `cpu.py` line 43). -/
def SP : ℚ := 7
/-- Register index of the interrupt status register (`IS = 6`, line 45). -/
def IS : ℚ := 6
/-- Register index of the interrupt mask register (`IM = 5`, line 47). -/
def IM : ℚ := 5

/-- Output events: `print` calls made by the handlers and the diagnostic for
an unrecognized opcode (`cpu.py` line 301), recorded in order. -/
inductive OutEvent
| prn : ℚ → OutEvent
| pra : ℚ → OutEvent
| invalid : ℚ → ℚ → OutEvent
deriving DecidableEq

/-- The mutable state of the `CPU` object (`cpu.py` lines 53-61), plus the
trace of output produced so far. -/
structure CPU where
  ram : ℚ → ℚ
  reg : ℚ → ℚ
  pc : ℚ
  fl : ℚ
  running : Bool
  ie : Bool
  out : List OutEvent

/-- Pointwise map update, used for both `ram` and `reg` writes. -/
def upd (f : ℚ → ℚ) (a v : ℚ) : ℚ → ℚ := fun x => if x = a then v else f x

/-- The state built by `CPU.__init__` (lines 53-61): zeroed ram and
registers, except `reg[SP] = 0xf4`; `pc = 0`, `fl = 0`, running, IE on. -/
def init : CPU :=
  { ram := fun _ => 0
    reg := upd (fun _ => 0) SP 0xf4
    pc := 0
    fl := 0
    running := true
    ie := true
    out := [] }

/-- Model of `self.ram[address]` / `ram_read` (line 80). -/
def ram_read (s : CPU) (address : ℚ) : ℚ := s.ram address

/-- Model of `ram_write` (line 83). -/
def ram_write (s : CPU) (address v : ℚ) : CPU := { s with ram := upd s.ram address v }

/-- Model of `self.reg[i] = v`. -/
def regWrite (s : CPU) (i v : ℚ) : CPU := { s with reg := upd s.reg i v }

/-- The value of a rational as a natural number: exact on the nonnegative
integers, where Python's bitwise operators are used by the source. -/
def toN (q : ℚ) : ℕ := q.num.toNat

/-- Python `a & b` on nonnegative integer register values (line 197). -/
def pyAnd (a b : ℚ) : ℚ := ((Nat.land (toN a) (toN b) : ℕ) : ℚ)

/-- Python `a | b` on nonnegative integer register values (line 231). -/
def pyOr (a b : ℚ) : ℚ := ((Nat.lor (toN a) (toN b) : ℕ) : ℚ)

/-- Python `a ^ b` on nonnegative integer register values (line 241). -/
def pyXor (a b : ℚ) : ℚ := ((Nat.xor (toN a) (toN b) : ℕ) : ℚ)

/-- Python `a % b` on integer values with a positive divisor (line 221):
Euclidean remainder of the numerators. -/
def pyMod (a b : ℚ) : ℚ := ((Int.emod a.num b.num : ℤ) : ℚ)

/-- Python `~ a` on an integer value (line 228): `~a = -a - 1`. -/
def pyNot (a : ℚ) : ℚ := -a - 1

/-- Exceptions the ALU can let escape: Python's built-in
`ZeroDivisionError`, raised by `/` and `%` themselves, and the explicit
`Exception("Error. Second register is zero")` sentinel of lines 210/224. -/
inductive PyExc
| zeroDivisionError
| sentinel
deriving DecidableEq

/-- Result of running a piece of the cycle: either a normal next state, or
an exception escaping together with the machine state it leaves behind
(the `CPU` object's attributes at the moment of the raise). -/
inductive AluResult
| ok : CPU → AluResult
| raised : PyExc → CPU → AluResult

/-- The machine state carried by an `AluResult`. -/
def AluResult.state : AluResult → CPU
| .ok s => s
| .raised _ s => s

/-- The exception carried by an `AluResult`, if any. -/
def AluResult.exc : AluResult → Option PyExc
| .ok _ => none
| .raised e _ => some e

/-- Model of `handle_HLT` (line 86). -/
def handle_HLT (s : CPU) : CPU := { s with running := false }

/-- Model of `handle_LDI` (line 89). -/
def handle_LDI (s : CPU) (a b : ℚ) : CPU := regWrite s a b

/-- Model of `handle_PRN` (line 92): records the printed register value. -/
def handle_PRN (s : CPU) (a : ℚ) : CPU := { s with out := s.out ++ [OutEvent.prn (s.reg a)] }

/-- The push pattern `reg[SP] -= 1; ram_write(reg[SP], v)` used verbatim by
`handle_PUSH` (lines 95-97), `handle_CALL` (lines 104-105) and
`check_interrupts` (lines 124-130). -/
def push (s : CPU) (v : ℚ) : CPU :=
  let s1 := regWrite s SP (s.reg SP - 1)
  ram_write s1 (s1.reg SP) v

/-- Model of `handle_PUSH` (line 95). -/
def handle_PUSH (s : CPU) (a : ℚ) : CPU := push s (s.reg a)

/-- Model of `handle_POP` (lines 99-101). -/
def handle_POP (s : CPU) (a : ℚ) : CPU :=
  let s1 := regWrite s a (s.ram (s.reg SP))
  regWrite s1 SP (s1.reg SP + 1)

/-- Model of `handle_CALL` (lines 103-106): push `pc + 2`, then jump to the
register's value. -/
def handle_CALL (s : CPU) (a : ℚ) : CPU :=
  let s1 := push s (s.pc + 2)
  { s1 with pc := s1.reg a }

/-- Model of `handle_RET` (lines 108-110). -/
def handle_RET (s : CPU) : CPU :=
  let s1 := { s with pc := s.ram (s.reg SP) }
  regWrite s1 SP (s1.reg SP + 1)

/-- Model of `handle_LD` (line 112). -/
def handle_LD (s : CPU) (a b : ℚ) : CPU := regWrite s a (s.ram (s.reg b))

/-- Model of `handle_JMP` (line 134). -/
def handle_JMP (s : CPU) (a : ℚ) : CPU := { s with pc := s.reg a }

/-- Model of `handle_JEQ` (lines 137-141): `if self.fl & 0b1` is Python
truthiness of the masked flag bit. -/
def handle_JEQ (s : CPU) (a : ℚ) : CPU :=
  if pyAnd s.fl 1 ≠ 0 then { s with pc := s.reg a } else { s with pc := s.pc + 2 }

/-- Model of `handle_JNE` (lines 143-147). -/
def handle_JNE (s : CPU) (a : ℚ) : CPU :=
  if pyAnd s.fl 1 = 0 then { s with pc := s.reg a } else { s with pc := s.pc + 2 }

/-- Model of `handle_PRA` (line 149): records the printed character code. -/
def handle_PRA (s : CPU) (a : ℚ) : CPU := { s with out := s.out ++ [OutEvent.pra (s.reg a)] }

/-- Model of `handle_ST` (line 152). -/
def handle_ST (s : CPU) (a b : ℚ) : CPU := ram_write s (s.reg a) (s.reg b)

/-- Model of `handle_IRET` (lines 155-164): pop registers 6 down to 0
(`for i in range(6, -1, -1)`), then `fl`, then `pc`, and re-enable IE. -/
def handle_IRET (s : CPU) : CPU :=
  let s1 := ([6, 5, 4, 3, 2, 1, 0] : List ℚ).foldl
    (fun st i =>
      let st1 := regWrite st i (st.ram (st.reg SP))
      regWrite st1 SP (st1.reg SP + 1)) s
  let s2 := { s1 with fl := s1.ram (s1.reg SP) }
  let s3 := regWrite s2 SP (s2.reg SP + 1)
  let s4 := { s3 with pc := s3.ram (s3.reg SP) }
  let s5 := regWrite s4 SP (s4.reg SP + 1)
  { s5 with ie := true }

/-- One interrupt trigger: the body of the `if interrupt_happened` branch of
`check_interrupts` (lines 122-132): clear IE, clear IS, push `pc`, `fl`,
then registers 0-6 (`for i in range(0, 7)`), and jump to `ram[0xf8]`. -/
def trigger (s : CPU) : CPU :=
  let s1 := { s with ie := false }
  let s2 := regWrite s1 IS 0
  let s3 := push s2 s2.pc
  let s4 := push s3 s3.fl
  let s5 := ([0, 1, 2, 3, 4, 5, 6] : List ℚ).foldl (fun st i => push st (st.reg i)) s4
  { s5 with pc := s5.ram 0xf8 }

/-- Model of `check_interrupts` (lines 115-132): `masked_interrupts` is
computed once on entry; each of bits 0-7 of it that is set fires a full
`trigger`.  `((masked >> i) & 1) == 1` on a nonnegative integer is its
`i`-th bit. -/
def check_interrupts (s : CPU) : CPU :=
  let masked_interrupts := pyAnd (s.reg IM) (s.reg IS)
  ([0, 1, 2, 3, 4, 5, 6, 7] : List ℕ).foldl
    (fun st i => if Nat.testBit (toN masked_interrupts) i then trigger st else st) s

/-- Model of `alu` (lines 187-242).  `DIV` and `MOD` first evaluate the
division/remainder expression (lines 207/221), which is where Python raises
`ZeroDivisionError` when the divisor register is zero — before the explicit
zero check on lines 208/222 can run, so the `handle_HLT` + sentinel branch
(lines 209-210 and 223-224) is unreachable; it is kept here as the dead
inner conditional.  `SHL`/`SHR` (lines 233-236) compute a shifted value as a
bare expression and never assign it, so they leave the state unchanged.
The duplicate `SUB` branch on lines 237-239 is shadowed by the first. -/
def alu (s : CPU) (op : ℕ) (reg_a reg_b : ℚ) : AluResult :=
  if op = ADD then .ok (regWrite s reg_a (s.reg reg_a + s.reg reg_b))
  else if op = SUB then .ok (regWrite s reg_a (s.reg reg_a - s.reg reg_b))
  else if op = MUL then .ok (regWrite s reg_a (s.reg reg_a * s.reg reg_b))
  else if op = AND then .ok (regWrite s reg_a (pyAnd (s.reg reg_a) (s.reg reg_b)))
  else if op = CMP then
    .ok (if s.reg reg_a = s.reg reg_b then { s with fl := 0b1 }
         else if s.reg reg_a < s.reg reg_b then { s with fl := 0b100 }
         else { s with fl := 0b010 })
  else if op = DIV then
    if s.reg reg_b = 0 then .raised PyExc.zeroDivisionError s
    else
      let result := s.reg reg_a / s.reg reg_b
      if s.reg reg_b = 0 then .raised PyExc.sentinel (handle_HLT s)
      else .ok (regWrite s reg_a result)
  else if op = INC then .ok (regWrite s reg_a (s.reg reg_a + 1))
  else if op = DEC then .ok (regWrite s reg_a (s.reg reg_a - 1))
  else if op = MOD then
    if s.reg reg_b = 0 then .raised PyExc.zeroDivisionError s
    else
      let result := pyMod (s.reg reg_a) (s.reg reg_b)
      if s.reg reg_b = 0 then .raised PyExc.sentinel (handle_HLT s)
      else .ok (regWrite s reg_a result)
  else if op = NOT then .ok (regWrite s reg_a (pyNot (s.reg reg_a)))
  else if op = OR then .ok (regWrite s reg_a (pyOr (s.reg reg_a) (s.reg reg_b)))
  else if op = SHL then .ok s
  else if op = SHR then .ok s
  else if op = XOR then .ok (regWrite s reg_a (pyXor (s.reg reg_a) (s.reg reg_b)))
  else .ok s

/-- The keys of `self.dispatchtable` (lines 63-78). -/
def dispatchtable : List ℕ :=
  [HLT, LDI, PRN, PUSH, POP, CALL, RET, LD, JMP, PRA, ST, IRET, JEQ, JNE]

/-- Dispatch on a table opcode (lines 292-298).  The source chooses the call
arity from the decoded instruction length; for every key of the table that
length equals the handler's arity, so calling each handler with its full
parameter list is the same function. -/
def dispatch (s : CPU) (op : ℕ) (operand_a operand_b : ℚ) : CPU :=
  if op = HLT then handle_HLT s
  else if op = LDI then handle_LDI s operand_a operand_b
  else if op = PRN then handle_PRN s operand_a
  else if op = PUSH then handle_PUSH s operand_a
  else if op = POP then handle_POP s operand_a
  else if op = CALL then handle_CALL s operand_a
  else if op = RET then handle_RET s
  else if op = LD then handle_LD s operand_a operand_b
  else if op = JMP then handle_JMP s operand_a
  else if op = PRA then handle_PRA s operand_a
  else if op = ST then handle_ST s operand_a operand_b
  else if op = IRET then handle_IRET s
  else if op = JEQ then handle_JEQ s operand_a
  else if op = JNE then handle_JNE s operand_a
  else s

/-- The fetch-decode-execute portion of one iteration of `run`
(lines 278-301): fetch `IR` and the two operand bytes, decode the length
`(IR >> 6) + 1`, the direct-PC flag (bit 4) and the ALU flag (bit 5),
advance `pc` by the length when the direct-PC flag is clear, then route to
the ALU, the dispatch table, or the invalid-instruction diagnostic (which
prints the opcode and the current, already-advanced `pc`).  The wall-clock
timer and the `check_interrupts` call of lines 270-276 sit before this in
the loop and are modelled separately. -/
def execute_instr (s : CPU) : AluResult :=
  let IR := toN (s.ram s.pc)
  let operand_a := s.ram (s.pc + 1)
  let operand_b := s.ram (s.pc + 2)
  let instructions := IR >>> 6 + 1
  let direct_set_instructions := Nat.testBit IR 4
  let alu_op := Nat.testBit IR 5
  let s1 := if direct_set_instructions then s else { s with pc := s.pc + (instructions : ℚ) }
  if alu_op then alu s1 IR operand_a operand_b
  else if IR ∈ dispatchtable then .ok (dispatch s1 IR operand_a operand_b)
  else .ok { s1 with out := s1.out ++ [OutEvent.invalid (s.ram s.pc) s1.pc] }

/-- All opcode constants defined by the source (lines 8-41). -/
def opcodes : List ℕ :=
  [HLT, LDI, PRN, LD, ST, PUSH, POP, PRA,
   ADD, SUB, MUL, DIV, MOD, INC, DEC, CMP, AND, NOT, OR, XOR, SHL, SHR,
   CALL, RET, INT, IRET, JMP, JEQ, JNE]

end LS8

namespace LS8

/-! Helper lemmas about the interrupt machinery, shared by several of the
results below. -/

/-- A fold that applies `f` exactly when `p i` holds applies `f` once per
element of the list satisfying `p`. -/
theorem foldl_ite_count (f : CPU → CPU) (p : ℕ → Bool) (l : List ℕ) (s : CPU) :
    l.foldl (fun st i => if p i then f st else st) s = f^[l.countP p] s := by
  induction l generalizing s with
  | nil => rfl
  | cons a tl ih =>
    by_cases h : p a
    · simp [List.foldl_cons, h, ih, List.countP_cons, Function.iterate_succ_apply]
    · simp [List.foldl_cons, h, ih, List.countP_cons]

/-- `check_interrupts` is `trigger` iterated once per set bit (among bits
0-7) of the masked-interrupts value computed on entry. -/
theorem check_interrupts_iterate (s : CPU) :
    check_interrupts s =
      trigger^[(([0, 1, 2, 3, 4, 5, 6, 7] : List ℕ).countP
        (fun i => Nat.testBit (toN (pyAnd (s.reg IM) (s.reg IS))) i))] s := by
  simp only [check_interrupts]
  exact foldl_ite_count trigger _ _ s

/-- One interrupt trigger leaves the flags register alone. -/
theorem trigger_fl (st : CPU) : (trigger st).fl = st.fl := by
  simp [trigger, push, regWrite, ram_write, List.foldl_cons, List.foldl_nil]

/-- One interrupt trigger performs nine pushes, so it lowers the stack
pointer by nine. -/
theorem trigger_reg7 (st : CPU) : (trigger st).reg 7 = st.reg 7 - 9 := by
  norm_num [trigger, push, regWrite, ram_write, upd, SP, IS, IM,
    List.foldl_cons, List.foldl_nil, sub_sub]

/-- Iterating the trigger `k` times lowers the stack pointer by `9 * k`. -/
theorem iterate_trigger_reg7 (k : ℕ) (s : CPU) :
    (trigger^[k] s).reg 7 = s.reg 7 - 9 * k := by
  induction k generalizing s with
  | zero => simp
  | succ n ih =>
    rw [Function.iterate_succ_apply, ih, trigger_reg7]
    push_cast
    ring

/-- Iterating the trigger never touches the flags register. -/
theorem iterate_trigger_fl (k : ℕ) (s : CPU) : (trigger^[k] s).fl = s.fl := by
  induction k generalizing s with
  | zero => simp
  | succ n ih => rw [Function.iterate_succ_apply, ih, trigger_fl]

/-- C1: when the second operand register is zero, `DIV` and `MOD` do not
halt the machine with a sentinel condition: the division/remainder
expression itself raises `ZeroDivisionError` before the zero check runs, so
the escaping exception is `ZeroDivisionError`, the `running` flag is left
unchanged (still true), and the sentinel is never signalled.  When the
second operand register is nonzero, no error is raised and the quotient
(resp. remainder) is stored in the first operand register. -/
theorem c1_div_mod_by_zero (s : CPU) (a b : ℚ) :
    (s.reg b = 0 →
      alu s DIV a b = AluResult.raised PyExc.zeroDivisionError s ∧
      alu s MOD a b = AluResult.raised PyExc.zeroDivisionError s ∧
      (alu s DIV a b).state.running = s.running ∧
      (alu s DIV a b).exc ≠ some PyExc.sentinel ∧
      (alu s MOD a b).exc ≠ some PyExc.sentinel) ∧
    (s.reg b ≠ 0 →
      (alu s DIV a b).exc = none ∧
      (alu s DIV a b).state.reg a = s.reg a / s.reg b ∧
      (alu s MOD a b).exc = none ∧
      (alu s MOD a b).state.reg a = pyMod (s.reg a) (s.reg b)) := by
  constructor
  · intro h
    simp [alu, ADD, SUB, MUL, AND, CMP, DIV, INC, DEC, MOD, NOT, OR, SHL, SHR, XOR, h,
      AluResult.state, AluResult.exc]
  · intro h
    simp [alu, ADD, SUB, MUL, AND, CMP, DIV, INC, DEC, MOD, NOT, OR, SHL, SHR, XOR, h,
      AluResult.state, AluResult.exc, regWrite, upd]

/-- C1 witness: in the initial state register 1 is zero, so `DIV` raises
`ZeroDivisionError` with the state unchanged; with register 1 set to 2 no
exception escapes. -/
theorem c1_witness :
    alu init DIV 0 1 = AluResult.raised PyExc.zeroDivisionError init ∧
    (alu (regWrite init 1 2) DIV 0 1).exc = none := by
  refine ⟨((c1_div_mod_by_zero init 0 1).1 ?_).1,
    ((c1_div_mod_by_zero (regWrite init 1 2) 0 1).2 ?_).1⟩
  · norm_num [init, regWrite, upd, SP]
  · norm_num [init, regWrite, upd, SP]

/-- C2 counterexample: a state with IE enabled and a pending unmasked
interrupt (IM = IS = 1) for which the full interrupt cycle does not restore
register 6 to its pre-interrupt value: IS is cleared to 0 before the
registers are saved, so IRET restores register 6 to 0, not to 1. -/
theorem c2_counterexample :
    ({ regWrite (regWrite (regWrite init 5 1) 6 1) 0 42 with
        pc := 10, fl := 2 } : CPU).ie = true ∧
    toN (pyAnd (({ regWrite (regWrite (regWrite init 5 1) 6 1) 0 42 with
        pc := 10, fl := 2 } : CPU).reg IM)
      (({ regWrite (regWrite (regWrite init 5 1) 6 1) 0 42 with
        pc := 10, fl := 2 } : CPU).reg IS)) ≠ 0 ∧
    ({ regWrite (regWrite (regWrite init 5 1) 6 1) 0 42 with
        pc := 10, fl := 2 } : CPU).reg 6 = 1 ∧
    (handle_IRET (check_interrupts { regWrite (regWrite (regWrite init 5 1) 6 1) 0 42 with
        pc := 10, fl := 2 })).reg 6 = 0 := by
  refine ⟨by decide, by decide, by decide, ?_⟩
  rw [check_interrupts_iterate]
  have h1 : (([0, 1, 2, 3, 4, 5, 6, 7] : List ℕ).countP
      (fun i => Nat.testBit (toN (pyAnd
        (({ regWrite (regWrite (regWrite init 5 1) 6 1) 0 42 with
            pc := 10, fl := 2 } : CPU).reg IM)
        (({ regWrite (regWrite (regWrite init 5 1) 6 1) 0 42 with
            pc := 10, fl := 2 } : CPU).reg IS))) i)) = 1 := by decide
  rw [h1, Function.iterate_one]
  norm_num [handle_IRET, trigger, push, regWrite, ram_write, upd, SP, IS, IM, init,
    List.foldl_cons, List.foldl_nil, sub_sub, sub_add, sub_right_inj]

/-- C2 amended: for every pre-interrupt state with IE enabled and exactly
one pending unmasked interrupt bit, the full interrupt cycle (trigger
followed by IRET with an undisturbed stack) restores PC, Flags, registers
0-5 and the stack pointer to their pre-interrupt values, re-enables IE and
leaves `running` unchanged; register 6 (the IS register) is instead
restored to 0, the value it was cleared to when the interrupt was
triggered. -/
theorem c2_interrupt_cycle_amended (s : CPU) (j : ℕ) (hj : j < 8)
    (hie : s.ie = true)
    (hp : toN (pyAnd (s.reg IM) (s.reg IS)) = 2 ^ j) :
    (handle_IRET (check_interrupts s)).pc = s.pc ∧
    (handle_IRET (check_interrupts s)).fl = s.fl ∧
    (handle_IRET (check_interrupts s)).reg 0 = s.reg 0 ∧
    (handle_IRET (check_interrupts s)).reg 1 = s.reg 1 ∧
    (handle_IRET (check_interrupts s)).reg 2 = s.reg 2 ∧
    (handle_IRET (check_interrupts s)).reg 3 = s.reg 3 ∧
    (handle_IRET (check_interrupts s)).reg 4 = s.reg 4 ∧
    (handle_IRET (check_interrupts s)).reg 5 = s.reg 5 ∧
    (handle_IRET (check_interrupts s)).reg 6 = 0 ∧
    (handle_IRET (check_interrupts s)).reg 7 = s.reg 7 ∧
    (handle_IRET (check_interrupts s)).ie = true ∧
    (handle_IRET (check_interrupts s)).running = s.running := by
  have hc : check_interrupts s = trigger s := by
    rw [check_interrupts_iterate, hp]
    have h1 : (([0, 1, 2, 3, 4, 5, 6, 7] : List ℕ).countP
        (fun i => Nat.testBit (2 ^ j) i)) = 1 := by
      interval_cases j <;> decide
    rw [h1, Function.iterate_one]
  rw [hc]
  norm_num [handle_IRET, trigger, push, regWrite, ram_write, upd, SP, IS, IM,
    List.foldl_cons, List.foldl_nil, sub_sub, sub_add, sub_right_inj]

/-- C2 witness: the amended interrupt round trip evaluated on a concrete
state with IM = IS = 1, register 0 = 42, pc = 10 and flags = 2. -/
theorem c2_witness :
    (handle_IRET (check_interrupts { regWrite (regWrite (regWrite init 5 1) 6 1) 0 42 with
        pc := 3, fl := 2 })).pc =
      ({ regWrite (regWrite (regWrite init 5 1) 6 1) 0 42 with
        pc := 3, fl := 2 } : CPU).pc ∧
    (handle_IRET (check_interrupts { regWrite (regWrite (regWrite init 5 1) 6 1) 0 42 with
        pc := 3, fl := 2 })).fl =
      ({ regWrite (regWrite (regWrite init 5 1) 6 1) 0 42 with
        pc := 3, fl := 2 } : CPU).fl ∧
    (handle_IRET (check_interrupts { regWrite (regWrite (regWrite init 5 1) 6 1) 0 42 with
        pc := 3, fl := 2 })).reg 0 =
      ({ regWrite (regWrite (regWrite init 5 1) 6 1) 0 42 with
        pc := 3, fl := 2 } : CPU).reg 0 ∧
    (handle_IRET (check_interrupts { regWrite (regWrite (regWrite init 5 1) 6 1) 0 42 with
        pc := 3, fl := 2 })).reg 6 = 0 ∧
    (handle_IRET (check_interrupts { regWrite (regWrite (regWrite init 5 1) 6 1) 0 42 with
        pc := 3, fl := 2 })).reg 7 =
      ({ regWrite (regWrite (regWrite init 5 1) 6 1) 0 42 with
        pc := 3, fl := 2 } : CPU).reg 7 ∧
    (handle_IRET (check_interrupts { regWrite (regWrite (regWrite init 5 1) 6 1) 0 42 with
        pc := 3, fl := 2 })).ie = true := by
  have h := c2_interrupt_cycle_amended
    { regWrite (regWrite (regWrite init 5 1) 6 1) 0 42 with pc := 3, fl := 2 }
    0 (by decide) (by decide) (by decide)
  exact ⟨h.1, h.2.1, h.2.2.1, h.2.2.2.2.2.2.2.2.1, h.2.2.2.2.2.2.2.2.2.1,
    h.2.2.2.2.2.2.2.2.2.2.1⟩

end LS8

namespace LS8

/-- C3: evaluated at the failing input, `ADD` of registers holding 200 and
100 stores 300 — not 44 = 300 mod 256 — in the destination register, and
`INC` of a register holding 255 stores 256: the ALU performs no 8-bit
truncation, so the destination register does not always hold a value in
0-255 afterwards. -/
theorem c3_no_truncation :
    (alu (regWrite (regWrite init 0 200) 1 100) ADD 0 1).state.reg 0 = 300 ∧
    ¬ (alu (regWrite (regWrite init 0 200) 1 100) ADD 0 1).state.reg 0 ≤ 255 ∧
    (alu (regWrite init 0 255) INC 0 0).state.reg 0 = 256 ∧
    ¬ (alu (regWrite init 0 255) INC 0 0).state.reg 0 ≤ 255 ∧
    (300 : ℚ) ≠ ((200 + 100) % 256 : ℕ) := by
  norm_num [alu, ADD, SUB, MUL, AND, CMP, DIV, INC, DEC, MOD, NOT, OR, SHL, SHR, XOR,
    AluResult.state, regWrite, upd, init, SP]

/-- C4: the cycle decodes the instruction length as `(IR >> 6) + 1`, treats
bit 4 as the sets-PC-directly flag and bit 5 as the is-ALU flag, advances
PC by the instruction length before dispatch exactly when bit 4 is clear,
and every opcode of the instruction set has length 1, 2 or 3. -/
theorem c4_decode_cycle (s : CPU) :
    (Nat.testBit (toN (s.ram s.pc)) 5 = true → Nat.testBit (toN (s.ram s.pc)) 4 = false →
      execute_instr s =
        alu { s with pc := s.pc + ((toN (s.ram s.pc) >>> 6 + 1 : ℕ) : ℚ) }
          (toN (s.ram s.pc)) (s.ram (s.pc + 1)) (s.ram (s.pc + 2))) ∧
    (Nat.testBit (toN (s.ram s.pc)) 5 = true → Nat.testBit (toN (s.ram s.pc)) 4 = true →
      execute_instr s = alu s (toN (s.ram s.pc)) (s.ram (s.pc + 1)) (s.ram (s.pc + 2))) ∧
    (Nat.testBit (toN (s.ram s.pc)) 5 = false → Nat.testBit (toN (s.ram s.pc)) 4 = false →
      toN (s.ram s.pc) ∈ dispatchtable →
      execute_instr s =
        AluResult.ok (dispatch { s with pc := s.pc + ((toN (s.ram s.pc) >>> 6 + 1 : ℕ) : ℚ) }
          (toN (s.ram s.pc)) (s.ram (s.pc + 1)) (s.ram (s.pc + 2)))) ∧
    (Nat.testBit (toN (s.ram s.pc)) 5 = false → Nat.testBit (toN (s.ram s.pc)) 4 = true →
      toN (s.ram s.pc) ∈ dispatchtable →
      execute_instr s =
        AluResult.ok (dispatch s (toN (s.ram s.pc)) (s.ram (s.pc + 1)) (s.ram (s.pc + 2)))) ∧
    (∀ op ∈ opcodes, op >>> 6 + 1 = 1 ∨ op >>> 6 + 1 = 2 ∨ op >>> 6 + 1 = 3) := by
  refine ⟨?_, ?_, ?_, ?_, by decide⟩
  · intro h5 h4
    simp [execute_instr, h5, h4]
  · intro h5 h4
    simp [execute_instr, h5, h4]
  · intro h5 h4 hmem
    simp [execute_instr, h5, h4, hmem]
  · intro h5 h4 hmem
    simp [execute_instr, h5, h4, hmem]

/-- C4 witness: the decode equations evaluated with opcode `ADD` (`0xA0`:
ALU flag set, direct-PC flag clear, length 3) fetched at address 0. -/
theorem c4_witness :
    execute_instr { init with ram := upd init.ram 0 160 } =
      alu { { init with ram := upd init.ram 0 160 } with
            pc := (({ init with ram := upd init.ram 0 160 } : CPU)).pc +
              ((toN ((({ init with ram := upd init.ram 0 160 } : CPU)).ram
                  (({ init with ram := upd init.ram 0 160 } : CPU)).pc) >>> 6 + 1 : ℕ) : ℚ) }
        (toN ((({ init with ram := upd init.ram 0 160 } : CPU)).ram
          (({ init with ram := upd init.ram 0 160 } : CPU)).pc))
        ((({ init with ram := upd init.ram 0 160 } : CPU)).ram
          ((({ init with ram := upd init.ram 0 160 } : CPU)).pc + 1))
        ((({ init with ram := upd init.ram 0 160 } : CPU)).ram
          ((({ init with ram := upd init.ram 0 160 } : CPU)).pc + 2)) := by
  refine (c4_decode_cycle { init with ram := upd init.ram 0 160 }).1 ?_ ?_ <;>
    · norm_num [init, upd, toN]
      decide

/-- C5: evaluated at the failing input, `DIV` of registers holding 5 and 2
stores the true quotient `5/2` in the destination register — a non-integer
value — where the floor of the quotient is 2. -/
theorem c5_div_true_division :
    (alu (regWrite (regWrite init 0 5) 1 2) DIV 0 1).state.reg 0 = 5 / 2 ∧
    (∀ z : ℤ, (alu (regWrite (regWrite init 0 5) 1 2) DIV 0 1).state.reg 0 ≠ (z : ℚ)) ∧
    ⌊(5 / 2 : ℚ)⌋ = 2 := by
  have h : (alu (regWrite (regWrite init 0 5) 1 2) DIV 0 1).state.reg 0 = 5 / 2 := by
    norm_num [alu, ADD, SUB, MUL, AND, CMP, DIV, INC, DEC, MOD, NOT, OR, SHL, SHR, XOR,
      AluResult.state, regWrite, upd, init, SP]
  refine ⟨h, ?_, by norm_num⟩
  intro z
  rw [h]
  intro hz
  have h2 : (5 : ℚ) = 2 * (z : ℚ) := by
    field_simp at hz
    linarith
  have h3 : (5 : ℤ) = 2 * z := by exact_mod_cast h2
  omega

/-- C6: the `SHL` and `SHR` branches of the ALU compute the shifted value
as a bare expression and never write it back: for every state the machine
state is returned unchanged, so the shift has no observable effect. -/
theorem c6_shl_shr_no_writeback (s : CPU) (a b : ℚ) :
    alu s SHL a b = AluResult.ok s ∧ alu s SHR a b = AluResult.ok s := by
  constructor <;>
    simp [alu, ADD, SUB, MUL, AND, CMP, DIV, INC, DEC, MOD, NOT, OR, SHL, SHR, XOR]

/-- C7 counterexample: `handle_IRET` run in a state whose memory holds 9
everywhere changes the Flags register (from 0 to the popped value 9), so it
is not true that no operation other than CMP ever alters Flags. -/
theorem c7_counterexample :
    (handle_IRET { init with ram := fun _ => 9 }).fl ≠
      ({ init with ram := fun _ => 9 } : CPU).fl := by
  norm_num [handle_IRET, List.foldl_cons, List.foldl_nil, regWrite, upd, SP, init]

/-- C7 amended: CMP sets Flags to exactly one of 1 (Equal), 2 (Greater) or
4 (Less) and mutates no register; every other ALU operation of the
instruction set leaves Flags unchanged; every instruction handler except
IRET leaves Flags unchanged, as does the interrupt check; IRET loads Flags
from the stack (the cell 7 above the entry stack pointer). -/
theorem c7_flags_discipline (s : CPU) (a b : ℚ) :
    ((alu s CMP a b).state.fl = 1 ∨ (alu s CMP a b).state.fl = 2 ∨
      (alu s CMP a b).state.fl = 4) ∧
    (alu s CMP a b).state.reg = s.reg ∧
    (alu s ADD a b).state.fl = s.fl ∧
    (alu s SUB a b).state.fl = s.fl ∧
    (alu s MUL a b).state.fl = s.fl ∧
    (alu s AND a b).state.fl = s.fl ∧
    (alu s DIV a b).state.fl = s.fl ∧
    (alu s INC a b).state.fl = s.fl ∧
    (alu s DEC a b).state.fl = s.fl ∧
    (alu s MOD a b).state.fl = s.fl ∧
    (alu s NOT a b).state.fl = s.fl ∧
    (alu s OR a b).state.fl = s.fl ∧
    (alu s SHL a b).state.fl = s.fl ∧
    (alu s SHR a b).state.fl = s.fl ∧
    (alu s XOR a b).state.fl = s.fl ∧
    (handle_HLT s).fl = s.fl ∧
    (handle_LDI s a b).fl = s.fl ∧
    (handle_PRN s a).fl = s.fl ∧
    (handle_PRA s a).fl = s.fl ∧
    (handle_PUSH s a).fl = s.fl ∧
    (handle_POP s a).fl = s.fl ∧
    (handle_CALL s a).fl = s.fl ∧
    (handle_RET s).fl = s.fl ∧
    (handle_LD s a b).fl = s.fl ∧
    (handle_ST s a b).fl = s.fl ∧
    (handle_JMP s a).fl = s.fl ∧
    (handle_JEQ s a).fl = s.fl ∧
    (handle_JNE s a).fl = s.fl ∧
    (check_interrupts s).fl = s.fl ∧
    (handle_IRET s).fl = s.ram (s.reg 7 + 7) := by
  refine ⟨?_, ?_, ?_, ?_, ?_, ?_, ?_, ?_, ?_, ?_, ?_, ?_, ?_, ?_, ?_, ?_, ?_, ?_, ?_, ?_,
    ?_, ?_, ?_, ?_, ?_, ?_, ?_, ?_, ?_, ?_⟩
  · by_cases h1 : s.reg a = s.reg b
    · simp [alu, CMP, ADD, SUB, MUL, AND, h1, AluResult.state]
    · by_cases h2 : s.reg a < s.reg b <;>
        simp [alu, CMP, ADD, SUB, MUL, AND, h1, h2, AluResult.state]
  · by_cases h1 : s.reg a = s.reg b
    · simp [alu, CMP, ADD, SUB, MUL, AND, h1, AluResult.state]
    · by_cases h2 : s.reg a < s.reg b <;>
        simp [alu, CMP, ADD, SUB, MUL, AND, h1, h2, AluResult.state]
  · by_cases h : s.reg b = 0 <;>
      simp [alu, ADD, SUB, MUL, AND, CMP, DIV, INC, DEC, MOD, NOT, OR, SHL, SHR, XOR, h,
        AluResult.state, regWrite, handle_HLT]
  · by_cases h : s.reg b = 0 <;>
      simp [alu, ADD, SUB, MUL, AND, CMP, DIV, INC, DEC, MOD, NOT, OR, SHL, SHR, XOR, h,
        AluResult.state, regWrite, handle_HLT]
  · by_cases h : s.reg b = 0 <;>
      simp [alu, ADD, SUB, MUL, AND, CMP, DIV, INC, DEC, MOD, NOT, OR, SHL, SHR, XOR, h,
        AluResult.state, regWrite, handle_HLT]
  · by_cases h : s.reg b = 0 <;>
      simp [alu, ADD, SUB, MUL, AND, CMP, DIV, INC, DEC, MOD, NOT, OR, SHL, SHR, XOR, h,
        AluResult.state, regWrite, handle_HLT]
  · by_cases h : s.reg b = 0 <;>
      simp [alu, ADD, SUB, MUL, AND, CMP, DIV, INC, DEC, MOD, NOT, OR, SHL, SHR, XOR, h,
        AluResult.state, regWrite, handle_HLT]
  · by_cases h : s.reg b = 0 <;>
      simp [alu, ADD, SUB, MUL, AND, CMP, DIV, INC, DEC, MOD, NOT, OR, SHL, SHR, XOR, h,
        AluResult.state, regWrite, handle_HLT]
  · by_cases h : s.reg b = 0 <;>
      simp [alu, ADD, SUB, MUL, AND, CMP, DIV, INC, DEC, MOD, NOT, OR, SHL, SHR, XOR, h,
        AluResult.state, regWrite, handle_HLT]
  · by_cases h : s.reg b = 0 <;>
      simp [alu, ADD, SUB, MUL, AND, CMP, DIV, INC, DEC, MOD, NOT, OR, SHL, SHR, XOR, h,
        AluResult.state, regWrite, handle_HLT]
  · by_cases h : s.reg b = 0 <;>
      simp [alu, ADD, SUB, MUL, AND, CMP, DIV, INC, DEC, MOD, NOT, OR, SHL, SHR, XOR, h,
        AluResult.state, regWrite, handle_HLT]
  · by_cases h : s.reg b = 0 <;>
      simp [alu, ADD, SUB, MUL, AND, CMP, DIV, INC, DEC, MOD, NOT, OR, SHL, SHR, XOR, h,
        AluResult.state, regWrite, handle_HLT]
  · by_cases h : s.reg b = 0 <;>
      simp [alu, ADD, SUB, MUL, AND, CMP, DIV, INC, DEC, MOD, NOT, OR, SHL, SHR, XOR, h,
        AluResult.state, regWrite, handle_HLT]
  · by_cases h : s.reg b = 0 <;>
      simp [alu, ADD, SUB, MUL, AND, CMP, DIV, INC, DEC, MOD, NOT, OR, SHL, SHR, XOR, h,
        AluResult.state, regWrite, handle_HLT]
  · by_cases h : s.reg b = 0 <;>
      simp [alu, ADD, SUB, MUL, AND, CMP, DIV, INC, DEC, MOD, NOT, OR, SHL, SHR, XOR, h,
        AluResult.state, regWrite, handle_HLT]
  · simp [handle_HLT]
  · simp [handle_LDI, regWrite]
  · simp [handle_PRN]
  · simp [handle_PRA]
  · simp [handle_PUSH, push, regWrite, ram_write]
  · simp [handle_POP, regWrite]
  · simp [handle_CALL, push, regWrite, ram_write]
  · simp [handle_RET, regWrite]
  · simp [handle_LD, regWrite]
  · simp [handle_ST, ram_write]
  · simp [handle_JMP]
  · by_cases h : pyAnd s.fl 1 = 0 <;> simp [handle_JEQ, h]
  · by_cases h : pyAnd s.fl 1 = 0 <;> simp [handle_JNE, h]
  · rw [check_interrupts_iterate]
    exact iterate_trigger_fl _ _
  · norm_num [handle_IRET, List.foldl_cons, List.foldl_nil, regWrite, upd, SP]
    ring_nf

end LS8

namespace LS8

/-- C8: the cycle routes a fetched CALL (resp. RET) opcode to its handler
without auto-advancing PC (the direct-PC bit of the opcode is set); CALL
pushes the address of the instruction after the CALL (`call_pc + 2`) and
jumps to the named register's value, and a following RET with an
undisturbed stack restores PC to that return address and the stack pointer
to its pre-CALL value. -/
theorem c8_call_ret (s : CPU) (r : ℚ) :
    (s.ram s.pc = ((CALL : ℕ) : ℚ) →
      execute_instr s = AluResult.ok (handle_CALL s (s.ram (s.pc + 1)))) ∧
    (s.ram s.pc = ((RET : ℕ) : ℚ) →
      execute_instr s = AluResult.ok (handle_RET s)) ∧
    (r ≠ 7 →
      (handle_CALL s r).ram (s.reg 7 - 1) = s.pc + 2 ∧
      (handle_CALL s r).reg 7 = s.reg 7 - 1 ∧
      (handle_CALL s r).pc = s.reg r ∧
      (handle_RET (handle_CALL s r)).pc = s.pc + 2 ∧
      (handle_RET (handle_CALL s r)).reg 7 = s.reg 7) := by
  refine ⟨?_, ?_, ?_⟩
  · intro h
    simp +decide [execute_instr, h, toN, CALL, dispatchtable, dispatch,
      HLT, LDI, PRN, PUSH, POP, RET, LD, JMP, PRA, ST, IRET, JEQ, JNE]
  · intro h
    simp +decide [execute_instr, h, toN, CALL, dispatchtable, dispatch,
      HLT, LDI, PRN, PUSH, POP, RET, LD, JMP, PRA, ST, IRET, JEQ, JNE]
  · intro hr
    refine ⟨?_, ?_, ?_, ?_, ?_⟩ <;>
      norm_num [handle_CALL, handle_RET, push, regWrite, ram_write, upd, SP, hr]

/-- C8 witness: CALL fetched at address 0 with operand register 2 holding
50, followed by RET, on a concrete state. -/
theorem c8_witness :
    (({ regWrite init 2 50 with ram := upd (upd init.ram 0 80) 1 2 } : CPU).ram
        ({ regWrite init 2 50 with ram := upd (upd init.ram 0 80) 1 2 } : CPU).pc =
        ((CALL : ℕ) : ℚ) →
      execute_instr { regWrite init 2 50 with ram := upd (upd init.ram 0 80) 1 2 } =
        AluResult.ok (handle_CALL { regWrite init 2 50 with ram := upd (upd init.ram 0 80) 1 2 }
          (({ regWrite init 2 50 with ram := upd (upd init.ram 0 80) 1 2 } : CPU).ram
            (({ regWrite init 2 50 with ram := upd (upd init.ram 0 80) 1 2 } : CPU).pc + 1)))) ∧
    ((2 : ℚ) ≠ 7 →
      (handle_CALL { regWrite init 2 50 with ram := upd (upd init.ram 0 80) 1 2 } 2).ram
          (({ regWrite init 2 50 with ram := upd (upd init.ram 0 80) 1 2 } : CPU).reg 7 - 1) =
        ({ regWrite init 2 50 with ram := upd (upd init.ram 0 80) 1 2 } : CPU).pc + 2 ∧
      (handle_CALL { regWrite init 2 50 with ram := upd (upd init.ram 0 80) 1 2 } 2).reg 7 =
        ({ regWrite init 2 50 with ram := upd (upd init.ram 0 80) 1 2 } : CPU).reg 7 - 1 ∧
      (handle_CALL { regWrite init 2 50 with ram := upd (upd init.ram 0 80) 1 2 } 2).pc =
        ({ regWrite init 2 50 with ram := upd (upd init.ram 0 80) 1 2 } : CPU).reg 2 ∧
      (handle_RET (handle_CALL
          { regWrite init 2 50 with ram := upd (upd init.ram 0 80) 1 2 } 2)).pc =
        ({ regWrite init 2 50 with ram := upd (upd init.ram 0 80) 1 2 } : CPU).pc + 2 ∧
      (handle_RET (handle_CALL
          { regWrite init 2 50 with ram := upd (upd init.ram 0 80) 1 2 } 2)).reg 7 =
        ({ regWrite init 2 50 with ram := upd (upd init.ram 0 80) 1 2 } : CPU).reg 7) :=
  ⟨(c8_call_ret { regWrite init 2 50 with ram := upd (upd init.ram 0 80) 1 2 } 2).1,
   (c8_call_ret { regWrite init 2 50 with ram := upd (upd init.ram 0 80) 1 2 } 2).2.2⟩

/-- C9 counterexample: the byte 16 (`0b00010000`) fetched at address 0 has
the ALU flag (bit 5) clear and no entry in the handler table, yet its
direct-PC bit (bit 4) is set, so the cycle leaves PC unchanged instead of
advancing it past the unrecognized instruction by its decoded length. -/
theorem c9_counterexample :
    Nat.testBit (toN (({ init with ram := upd init.ram 0 16 } : CPU).ram
      ({ init with ram := upd init.ram 0 16 } : CPU).pc)) 5 = false ∧
    toN (({ init with ram := upd init.ram 0 16 } : CPU).ram
      ({ init with ram := upd init.ram 0 16 } : CPU).pc) ∉ dispatchtable ∧
    (execute_instr { init with ram := upd init.ram 0 16 }).state.pc ≠
      ({ init with ram := upd init.ram 0 16 } : CPU).pc +
        ((toN (({ init with ram := upd init.ram 0 16 } : CPU).ram
          ({ init with ram := upd init.ram 0 16 } : CPU).pc) >>> 6 + 1 : ℕ) : ℚ) := by
  refine ⟨by decide, by decide, ?_⟩
  simp +decide [execute_instr, init, upd, toN, AluResult.state, dispatchtable,
    HLT, LDI, PRN, PUSH, POP, CALL, RET, LD, JMP, PRA, ST, IRET, JEQ, JNE]

/-- C9 amended: an opcode with the ALU flag clear and no handler-table
entry is non-fatal: no exception escapes, `running` and all registers,
memory and flags are unchanged, a diagnostic is recorded, and execution
continues at PC advanced by the decoded length when the direct-PC bit
(bit 4) is clear — but at an unchanged PC when bit 4 is set. -/
theorem c9_unrecognized_nonfatal (s : CPU)
    (h5 : Nat.testBit (toN (s.ram s.pc)) 5 = false)
    (hm : toN (s.ram s.pc) ∉ dispatchtable) :
    (execute_instr s).exc = none ∧
    (execute_instr s).state.running = s.running ∧
    (execute_instr s).state.reg = s.reg ∧
    (execute_instr s).state.ram = s.ram ∧
    (execute_instr s).state.fl = s.fl ∧
    (execute_instr s).state.pc =
      (if Nat.testBit (toN (s.ram s.pc)) 4 then s.pc
       else s.pc + ((toN (s.ram s.pc) >>> 6 + 1 : ℕ) : ℚ)) ∧
    (execute_instr s).state.out =
      s.out ++ [OutEvent.invalid (s.ram s.pc) ((execute_instr s).state.pc)] := by
  by_cases h4 : Nat.testBit (toN (s.ram s.pc)) 4 <;>
    simp [execute_instr, h5, h4, hm, AluResult.state, AluResult.exc]

/-- C9 witness: the non-fatal diagnostic behaviour evaluated on the
concrete unrecognized byte 16 fetched at address 0. -/
theorem c9_witness :
    (execute_instr { init with ram := upd init.ram 0 16 }).exc = none ∧
    (execute_instr { init with ram := upd init.ram 0 16 }).state.running =
      ({ init with ram := upd init.ram 0 16 } : CPU).running ∧
    (execute_instr { init with ram := upd init.ram 0 16 }).state.reg =
      ({ init with ram := upd init.ram 0 16 } : CPU).reg ∧
    (execute_instr { init with ram := upd init.ram 0 16 }).state.ram =
      ({ init with ram := upd init.ram 0 16 } : CPU).ram ∧
    (execute_instr { init with ram := upd init.ram 0 16 }).state.fl =
      ({ init with ram := upd init.ram 0 16 } : CPU).fl := by
  have h := c9_unrecognized_nonfatal { init with ram := upd init.ram 0 16 }
    (by decide) (by decide)
  exact ⟨h.1, h.2.1, h.2.2.1, h.2.2.2.1, h.2.2.2.2.1⟩

/-- C10: with IE enabled, one interrupt check applies the full save
sequence (`trigger`: nine pushes and a jump through memory `0xF8`) once for
every set bit among bits 0-7 of the masked pending value `IM AND IS`
computed at entry — it does not stop after the first — and each trigger
lowers the stack pointer by 9, so the stack pointer drops by 9 per set
bit. -/
theorem c10_all_pending_serviced (s : CPU) (m n : ℕ)
    (hm : s.reg IM = (m : ℚ)) (hn : s.reg IS = (n : ℚ)) (hie : s.ie = true) :
    check_interrupts s =
      trigger^[(([0, 1, 2, 3, 4, 5, 6, 7] : List ℕ).countP
        (fun i => Nat.testBit (Nat.land m n) i))] s ∧
    (∀ st : CPU, (trigger st).reg 7 = st.reg 7 - 9) ∧
    (check_interrupts s).reg 7 =
      s.reg 7 - 9 * (([0, 1, 2, 3, 4, 5, 6, 7] : List ℕ).countP
        (fun i => Nat.testBit (Nat.land m n) i)) := by
  have key : toN (pyAnd (s.reg IM) (s.reg IS)) = Nat.land m n := by
    rw [hm, hn]
    simp [pyAnd, toN]
  have hc : check_interrupts s =
      trigger^[(([0, 1, 2, 3, 4, 5, 6, 7] : List ℕ).countP
        (fun i => Nat.testBit (Nat.land m n) i))] s := by
    rw [check_interrupts_iterate]
    simp only [key]
  exact ⟨hc, trigger_reg7, by rw [hc, iterate_trigger_reg7]⟩

/-- C10 witness: with IM = 3 and IS = 7 the pending value 3 has two set
bits, and the interrupt check lowers the stack pointer by 18. -/
theorem c10_witness :
    check_interrupts (regWrite (regWrite init 5 3) 6 7) =
      trigger^[(([0, 1, 2, 3, 4, 5, 6, 7] : List ℕ).countP
        (fun i => Nat.testBit (Nat.land 3 7) i))] (regWrite (regWrite init 5 3) 6 7) ∧
    (check_interrupts (regWrite (regWrite init 5 3) 6 7)).reg 7 =
      (regWrite (regWrite init 5 3) 6 7 : CPU).reg 7 -
        9 * (([0, 1, 2, 3, 4, 5, 6, 7] : List ℕ).countP
          (fun i => Nat.testBit (Nat.land 3 7) i)) := by
  have h := c10_all_pending_serviced (regWrite (regWrite init 5 3) 6 7) 3 7
    (by decide) (by decide) (by decide)
  exact ⟨h.1, h.2.2⟩

end LS8
